import Mathlib

/-!
Verification of the salter firewall-group reconciler, rule compiler, region
cache and node lifecycle against their natural-language specification.

The definitions below are shallow embeddings of the Go source:
  * `PermArray.contains`, `sgroups` missing-permission computation
    (sgroups.go, `sgroups` / `parseSGRule` / `PermArray.contains`)
  * `parseSGRule` and its port validators (sgroups.go)
  * `Region.refresh` and the region-cache actor loop (region.go)
  * `Node.update` (node.go) and `waitForRunning` (launch.go)

Machine integers are modelled as `Int` (port values fit well inside the
int64 range; Go `strconv.Atoi` overflow is modelled as a parse error, which
matches Go returning a non-nil error). External collaborators (the EC2 API,
`net.ParseCIDR`, local key loading) are parameters of the embedding.
-/

namespace Salter

/-- ec2.UserSecurityGroup — the fields salter uses (Id, Name, OwnerId). -/
structure UserSecurityGroup where
  id : String
  name : String
  ownerId : String
  deriving DecidableEq, Repr

/-- ec2.IPPerm — one permission entry of a security group. -/
structure IPPerm where
  protocol : String
  fromPort : Int
  toPort : Int
  sourceIPs : List String
  sourceGroups : List UserSecurityGroup
  deriving DecidableEq, Repr

/-- `compareString` closure inside `PermArray.contains` (sgroups.go:360-374):
every element of `s2` must occur somewhere in `s1`. -/
def compareString (s1 s2 : List String) : Bool :=
  s2.all fun d2 => s1.any fun d1 => d2 == d1

/-- `compareSG` closure inside `PermArray.contains` (sgroups.go:376-390):
every element of `s2` must have a matching Id somewhere in `s1`. -/
def compareSG (s1 s2 : List UserSecurityGroup) : Bool :=
  s2.all fun d2 => s1.any fun d1 => d1.id == d2.id

/-- The per-element test of the loop in `PermArray.contains`
(sgroups.go:392-407): the Go switch `continue`s on any mismatch and returns
true only when all five comparisons pass. -/
def permMatches (p perm : IPPerm) : Bool :=
  p.protocol == perm.protocol && p.fromPort == perm.fromPort &&
    p.toPort == perm.toPort && compareString p.sourceIPs perm.sourceIPs &&
    compareSG p.sourceGroups perm.sourceGroups

/-- `PermArray.contains` (sgroups.go:359-409). -/
def PermArray.contains (perms : List IPPerm) (perm : IPPerm) : Bool :=
  perms.any fun p => permMatches p perm

/-- The missing-permission computation of `sgroups` (sgroups.go:90-104):
`wanted` is the concatenation of the permissions compiled from the rules, and
a wanted permission is collected exactly when the existing set does not
contain it. -/
def missingPerms (existing wanted : List IPPerm) : List IPPerm :=
  wanted.filter fun p => !(PermArray.contains existing p)

theorem compareString_refl (s : List String) : compareString s s = true := by
  simp only [compareString, List.all_eq_true, List.any_eq_true]
  exact fun d2 h2 => ⟨d2, h2, by simp⟩

theorem compareSG_refl (s : List UserSecurityGroup) : compareSG s s = true := by
  simp only [compareSG, List.all_eq_true, List.any_eq_true]
  exact fun d2 h2 => ⟨d2, h2, by simp⟩

theorem permMatches_refl (p : IPPerm) : permMatches p p = true := by
  simp [permMatches, compareString_refl, compareSG_refl]

theorem contains_append (l1 l2 : List IPPerm) (p : IPPerm) :
    PermArray.contains (l1 ++ l2) p =
      (PermArray.contains l1 p || PermArray.contains l2 p) := by
  simp [PermArray.contains, List.any_append]

theorem contains_of_mem {l : List IPPerm} {p : IPPerm} (h : p ∈ l) :
    PermArray.contains l p = true := by
  simp only [PermArray.contains, List.any_eq_true]
  exact ⟨p, h, permMatches_refl p⟩

/-- C1: reconciliation is idempotent — for any existing permission set of a
firewall group and any compiled wanted permission list, adding the computed
missing permissions to the group and recomputing the missing set against the
same wanted list yields the empty set. -/
theorem reconcile_idempotent (existing wanted : List IPPerm) :
    missingPerms (existing ++ missingPerms existing wanted) wanted = [] := by
  rw [missingPerms, List.filter_eq_nil_iff]
  intro p hp
  have hall : PermArray.contains (existing ++ missingPerms existing wanted) p = true := by
    by_cases hc : PermArray.contains existing p = true
    · rw [contains_append, hc, Bool.true_or]
    · have hmem : p ∈ missingPerms existing wanted := by
        rw [missingPerms, List.mem_filter]
        exact ⟨hp, by simp [hc]⟩
      rw [contains_append, contains_of_mem hmem, Bool.or_true]
  simp [hall]

theorem compareString_eq_true_iff (s1 s2 : List String) :
    compareString s1 s2 = true ↔ ∀ d ∈ s2, d ∈ s1 := by
  simp [compareString, List.all_eq_true, List.any_eq_true]

theorem compareSG_eq_true_iff (s1 s2 : List UserSecurityGroup) :
    compareSG s1 s2 = true ↔ ∀ g ∈ s2, ∃ g2 ∈ s1, g2.id = g.id := by
  simp [compareSG, List.all_eq_true, List.any_eq_true]

/-- Concrete groups X, Y, Z for the containment example of C2. -/
def sgX : UserSecurityGroup := { id := "sg-x", name := "X", ownerId := "own-1" }

def sgY : UserSecurityGroup := { id := "sg-y", name := "Y", ownerId := "own-1" }

def sgZ : UserSecurityGroup := { id := "sg-z", name := "Z", ownerId := "own-1" }

/-- A live permission whose source-group set is {X, Y}. -/
def livePermXY : IPPerm :=
  { protocol := "tcp", fromPort := 80, toPort := 80, sourceIPs := [],
    sourceGroups := [sgX, sgY] }

/-- A wanted permission requiring source group {X}. -/
def wantPermX : IPPerm :=
  { protocol := "tcp", fromPort := 80, toPort := 80, sourceIPs := [],
    sourceGroups := [sgX] }

/-- A wanted permission requiring source groups {X, Z}. -/
def wantPermXZ : IPPerm :=
  { protocol := "tcp", fromPort := 80, toPort := 80, sourceIPs := [],
    sourceGroups := [sgX, sgZ] }

/-- C2: permission containment is set-based and order-insensitive — a wanted
permission is contained iff some existing permission agrees on protocol and
port range, every wanted source IP occurs in its source-IP set and every
wanted source group has a matching stable identifier in its source-group set;
in particular a live permission with groups {X, Y} contains a wanted
permission requiring {X} but not one requiring {X, Z}. -/
theorem contains_set_based :
    (∀ (perms : List IPPerm) (perm : IPPerm),
      PermArray.contains perms perm = true ↔
        ∃ p ∈ perms, p.protocol = perm.protocol ∧ p.fromPort = perm.fromPort ∧
          p.toPort = perm.toPort ∧ (∀ ip ∈ perm.sourceIPs, ip ∈ p.sourceIPs) ∧
          ∀ g ∈ perm.sourceGroups, ∃ g2 ∈ p.sourceGroups, g2.id = g.id) ∧
    PermArray.contains [livePermXY] wantPermX = true ∧
    PermArray.contains [livePermXY] wantPermXZ = false := by
  refine ⟨?_, by decide, by decide⟩
  intro perms perm
  simp [PermArray.contains, List.any_eq_true, permMatches, Bool.and_eq_true,
    compareString_eq_true_iff, compareSG_eq_true_iff, and_assoc]

/-! ## Rule compilation (`parseSGRule`, sgroups.go:161-357) -/

/-- Go `strconv.Atoi`: optional sign, then decimal digits; empty or
non-numeric input is an error, as is an out-of-int64-range value (Go reports
`ErrRange`; only error-vs-success is relevant to the claims, so the message
text is abbreviated). -/
def atoi (s : String) : Except String Int :=
  let step : Int × List Char :=
    match s.toList with
    | '+' :: rest => (1, rest)
    | '-' :: rest => (-1, rest)
    | rest => (1, rest)
  let ds := step.2
  if ds.isEmpty then .error ("invalid syntax")
  else if ds.all Char.isDigit then
    let n : Nat := ds.foldl (fun acc c => acc * 10 + (c.toNat - 48)) 0
    let v : Int := step.1 * (n : Int)
    if v < -(2 ^ 63) ∨ 2 ^ 63 - 1 < v then .error ("value out of range")
    else .ok v
  else .error ("invalid syntax")

/-- Splits a character list at every colon (structural recursion, so that
concrete rule strings evaluate by kernel reduction). -/
def splitOnColon : List Char → List (List Char)
  | [] => [[]]
  | c :: rest =>
    let r := splitOnColon rest
    if c = ':' then [] :: r
    else
      match r with
      | [] => [[c]]
      | g :: gs => (c :: g) :: gs

/-- Rejoins pieces with colons (inverse of the splitting of the tail). -/
def joinColon : List String → String
  | [] => ""
  | p :: rest => rest.foldl (fun acc q => acc ++ (":") ++ q) p

/-- Go `strings.SplitN(s, ":", 4)`: at most four pieces, the last keeping any
remaining separators. -/
def goSplitN4 (s : String) : List String :=
  let parts := (splitOnColon s.toList).map (fun l => String.mk l)
  if parts.length ≤ 4 then parts
  else parts.take 3 ++ [joinColon (parts.drop 3)]

/-- `checkNormalPort` closure of parseSGRule (sgroups.go:166-196): validates
tcp/udp from/to port strings. -/
def checkNormalPort (rule fromStr toStr : String) : Except String (Int × Int) :=
  match atoi fromStr with
  | .error e => .error ("(" ++ rule ++ "): from_port is not an integer: " ++ e)
  | .ok fromInt =>
    if fromInt < 1 then
      .error ("(" ++ rule ++ "): from_port is less than 1: " ++ toString fromInt)
    else if fromInt > 65535 then
      .error ("(" ++ rule ++ "): from_port is larger than 65535: " ++
        toString fromInt)
    else if toStr == "" then .ok (fromInt, fromInt)
    else match atoi toStr with
      | .error e => .error ("(" ++ rule ++ "): to_port is not an integer: " ++ e)
      | .ok toInt =>
        if toInt < fromInt then
          .error ("(" ++ rule ++ "): to_port (" ++ toString toInt ++
            ") can not be less than from_port (" ++ toString fromInt ++ ")")
        else if toInt > 65535 then
          .error ("(" ++ toString toInt ++
            "): to_port can not be greater than 65535: " ++ toString toInt)
        else .ok (fromInt, toInt)

/-- The icmp type token table of `checkICMPPort` (sgroups.go:211-220). -/
def icmpType (t : String) : Option Int :=
  if t = "*" then some (-1)
  else if t = "echo_reply" ∨ t = "0" then some 0
  else if t = "echo_request" ∨ t = "ping" ∨ t = "8" then some 8
  else none

/-- The icmp code token table of `checkICMPPort` (sgroups.go:223-228). -/
def icmpCode (c : String) : Option Int :=
  if c = "*" ∨ c = "" ∨ c = "-1" then some (-1) else none

/-- `checkICMPPort` closure of parseSGRule (sgroups.go:201-232). -/
def checkICMPPort (rule t c : String) : Except String (Int × Int) :=
  match icmpType t with
  | none => .error ("(" ++ rule ++ "): Unknown icmp type: " ++ t)
  | some fromInt =>
    match icmpCode c with
    | none => .error ("(" ++ rule ++ "): Unknown code type: " ++ c)
    | some toInt => .ok (fromInt, toInt)

/-- `checkProto` closure of parseSGRule (sgroups.go:236-249): maps a protocol
name to its port-checking function. -/
def checkProto (rule p : String) :
    Except String (String → String → Except String (Int × Int)) :=
  if p = "tcp" then .ok (checkNormalPort rule)
  else if p = "udp" then .ok (checkNormalPort rule)
  else if p = "tcp/udp" then .ok (checkNormalPort rule)
  else if p = "icmp" then .ok (checkICMPPort rule)
  else .error ("(" ++ rule ++ "): Unknown protocol: " ++ p)

/-- The external collaborators parseSGRule consults: the configured nodes'
SGroup names (G_CONFIG.Nodes, for wildcard expansion), `net.ParseCIDR`
success, and `RegionSGEnsureExists` (name, region) — an error models the AWS
call failing, on which Go aborts via fatalf. -/
structure SGRuleEnv where
  configSGroups : List String
  isCidr : String → Bool
  resolveSG : String → String → Except String UserSecurityGroup

/-- First-occurrence deduplication: the Go code collects wildcard matches in
a `map[string]bool`; the embedding fixes first-occurrence order for the
(unordered) Go map iteration. -/
def dedup (xs : List String) : List String :=
  xs.foldl (fun acc x => if acc.contains x then acc else acc ++ [x]) []

/-- The expansion loop of parseSGRule (sgroups.go:291-353): the match set
(wildcard expands over every configured node SGroup), cross-producted with
the tcp/udp protocol expansion; a CIDR match becomes a SourceIPs entry, any
other match resolves to a security-group reference by Id/Name/OwnerId. -/
def expandRule (env : SGRuleEnv) (region protocol : String)
    (fromPort toPort : Int) (mtch : String) : Except String (List IPPerm) :=
  let matchNames := if mtch == "*" then dedup env.configSGroups else [mtch]
  let protocols := if protocol == "tcp/udp" then ["tcp", "udp"] else [protocol]
  matchNames.foldlM (fun acc m =>
    protocols.foldlM (fun acc2 proto =>
      if env.isCidr m then
        pure (acc2 ++ [{ protocol := proto, fromPort := fromPort,
                         toPort := toPort, sourceIPs := [m],
                         sourceGroups := [] }])
      else
        match env.resolveSG m region with
        | .error e => .error ("Unable to make " ++ m ++ ": " ++ e)
        | .ok sg =>
          pure (acc2 ++ [{ protocol := proto, fromPort := fromPort,
                           toPort := toPort, sourceIPs := [],
                           sourceGroups := [sg] }])) acc) []

/-- `parseSGRule` (sgroups.go:161-357): split the rule on colons (2, 3 or 4
fields), validate protocol and ports, then expand matches and protocols into
the permission list. -/
def parseSGRule (env : SGRuleEnv) (rule region : String) :
    Except String (List IPPerm) :=
  match goSplitN4 rule with
  | [p, m] => do
      let f ← checkProto rule p
      let pr ← f ("") ("")
      expandRule env region p pr.1 pr.2 m
  | [p, port, m] => do
      let f ← checkProto rule p
      let pr ← f port ("")
      expandRule env region p pr.1 pr.2 m
  | [p, fpStr, tpStr, m] => do
      let f ← checkProto rule p
      let pr ← f fpStr tpStr
      expandRule env region p pr.1 pr.2 m
  | _ => .error ("Unknown rule format: " ++ rule)

/-- True exactly on `Except.ok`. -/
def isOkE {ε α : Type} : Except ε α → Bool
  | .ok _ => true
  | .error _ => false

/-- Concrete group records backing the test environment. -/
def sgA : UserSecurityGroup := { id := "sg-a", name := "A", ownerId := "own-2" }

def sgB : UserSecurityGroup := { id := "sg-b", name := "B", ownerId := "own-2" }

def sgC : UserSecurityGroup := { id := "sg-c", name := "C", ownerId := "own-2" }

/-- Test environment: configured groups {A, B, C}; only 10.0.0.0/8 is
CIDR-shaped; group resolution knows A, B and C. -/
def envABC : SGRuleEnv :=
  { configSGroups := ["A", "B", "C"],
    isCidr := fun s => s == "10.0.0.0/8",
    resolveSG := fun name _ =>
      if name == "A" then .ok sgA
      else if name == "B" then .ok sgB
      else if name == "C" then .ok sgC
      else .error ("no such group") }

theorem icmpType_eq_some (t : String) (x : Int) :
    icmpType t = some x ↔
      ((t = "*" ∧ x = -1) ∨ ((t = "echo_reply" ∨ t = "0") ∧ x = 0) ∨
        ((t = "echo_request" ∨ t = "ping" ∨ t = "8") ∧ x = 8)) := by
  unfold icmpType
  split_ifs with h1 h2 h3
  · subst h1; simp_all; omega
  · rcases h2 with h | h <;> subst h <;> simp_all <;> omega
  · rcases h3 with h | h | h <;> subst h <;> simp_all <;> omega
  · simp_all

theorem icmpCode_eq_some (c : String) (x : Int) :
    icmpCode c = some x ↔ ((c = "*" ∨ c = "" ∨ c = "-1") ∧ x = -1) := by
  unfold icmpCode
  split_ifs with h1
  · simp_all; omega
  · simp_all

theorem checkICMPPort_ok_iff (rule t c : String) (fp tp : Int) :
    checkICMPPort rule t c = .ok (fp, tp) ↔
      (((t = "*" ∧ fp = -1) ∨ ((t = "echo_reply" ∨ t = "0") ∧ fp = 0) ∨
        ((t = "echo_request" ∨ t = "ping" ∨ t = "8") ∧ fp = 8)) ∧
       ((c = "*" ∨ c = "" ∨ c = "-1") ∧ tp = -1)) := by
  rw [← icmpType_eq_some, ← icmpCode_eq_some]
  unfold checkICMPPort
  cases hT : icmpType t with
  | none => simp [hT]
  | some a =>
    cases hC : icmpCode c with
    | none => simp [hT, hC]
    | some b => simp [hT, hC, Prod.ext_iff, eq_comm, and_comm]

theorem checkNormalPort_ok_iff (rule fromStr toStr : String) (fp tp : Int) :
    checkNormalPort rule fromStr toStr = .ok (fp, tp) ↔
      (atoi fromStr = .ok fp ∧ 1 ≤ fp ∧ fp ≤ 65535 ∧
        ((toStr = "" ∧ tp = fp) ∨
         (toStr ≠ "" ∧ atoi toStr = .ok tp ∧ fp ≤ tp ∧ tp ≤ 65535))) := by
  cases hf : atoi fromStr with
  | error e => simp [checkNormalPort, hf]
  | ok fi =>
    simp only [checkNormalPort, hf, Except.ok.injEq]
    by_cases ht : toStr = ""
    · subst ht
      simp only [beq_self_eq_true, if_true, ne_eq, not_true_eq_false, false_and,
        or_false]
      split_ifs with h1 h2
      · constructor
        · intro h; cases h
        · rintro ⟨hfp, hb1, -, -⟩; omega
      · constructor
        · intro h; cases h
        · rintro ⟨hfp, -, hb2, -⟩; omega
      · constructor
        · intro h
          injection h with h'
          injection h' with hA hB
          exact ⟨hA, by omega, by omega, trivial, by omega⟩
        · rintro ⟨hfp, -, -, -, htp⟩
          subst hfp; subst htp; rfl
    · have hbe : (toStr == "") = false := beq_eq_false_iff_ne.mpr ht
      simp only [hbe, Bool.false_eq_true, if_false, ne_eq, ht, not_false_eq_true,
        true_and, false_and, false_or]
      cases hto : atoi toStr with
      | error e2 =>
        constructor
        · intro h
          split_ifs at h
        · rintro ⟨-, -, -, htp, -⟩; cases htp
      | ok ti =>
        simp only [Except.ok.injEq]
        split_ifs with h1 h2 h3 h4
        · constructor
          · intro h; cases h
          · rintro ⟨hfp, hb1, -, -, -, -⟩; omega
        · constructor
          · intro h; cases h
          · rintro ⟨hfp, -, hb2, -, -, -⟩; omega
        · constructor
          · intro h; cases h
          · rintro ⟨hfp, -, -, htp, hb3, -⟩; omega
        · constructor
          · intro h; cases h
          · rintro ⟨hfp, -, -, htp, -, hb4⟩; omega
        · constructor
          · intro h
            injection h with h'
            injection h' with hA hB
            exact ⟨hA, by omega, by omega, hB, by omega, by omega⟩
          · rintro ⟨hfp, -, -, htp, -, -⟩
            subst hfp; subst htp; rfl

/-- C6: the spec states that a 2-field rule `proto:match` with a valid
protocol compiles to one permission per matched name covering all ports (or
all icmp types/codes) by passing empty port arguments to the protocol
validator. The code does pass empty arguments, but both validators reject
them — `Atoi("")` errors for tcp/udp/tcp-udp, and "" is not a recognized icmp
type — so every 2-field rule fails to compile, contradicting the parseSGRule
doc comment that documents `proto:match` as a valid format allowing all
traffic of the protocol. -/
theorem twoField_rule_always_rejected :
    parseSGRule envABC ("tcp:10.0.0.0/8") ("us-east-1") =
      .error ("(tcp:10.0.0.0/8): from_port is not an integer: invalid syntax") ∧
    parseSGRule envABC ("udp:10.0.0.0/8") ("us-east-1") =
      .error ("(udp:10.0.0.0/8): from_port is not an integer: invalid syntax") ∧
    parseSGRule envABC ("tcp/udp:10.0.0.0/8") ("us-east-1") =
      .error
        ("(tcp/udp:10.0.0.0/8): from_port is not an integer: invalid syntax") ∧
    parseSGRule envABC ("icmp:10.0.0.0/8") ("us-east-1") =
      .error ("(icmp:10.0.0.0/8): Unknown icmp type: ") :=
  ⟨by rfl, by rfl, by rfl, by rfl⟩

/-- C7: tcp/udp port validation succeeds exactly when from_port parses to a
value in [1,65535] and to_port, when present, parses with
from_port ≤ to_port ≤ 65535 (an omitted to_port equals from_port); icmp
validation succeeds exactly on type tokens `*` (-1), `echo_reply`/`0` (0),
`echo_request`/`ping`/`8` (8) and code tokens `*`/empty/`-1` (-1); and the
three rules named in the spec are rejected with errors naming the offending
rule text. -/
theorem port_validation :
    (∀ rule fromStr toStr fp tp,
      checkNormalPort rule fromStr toStr = .ok (fp, tp) ↔
        (atoi fromStr = .ok fp ∧ 1 ≤ fp ∧ fp ≤ 65535 ∧
          ((toStr = "" ∧ tp = fp) ∨
           (toStr ≠ "" ∧ atoi toStr = .ok tp ∧ fp ≤ tp ∧ tp ≤ 65535)))) ∧
    (∀ rule t c fp tp,
      checkICMPPort rule t c = .ok (fp, tp) ↔
        (((t = "*" ∧ fp = -1) ∨ ((t = "echo_reply" ∨ t = "0") ∧ fp = 0) ∨
          ((t = "echo_request" ∨ t = "ping" ∨ t = "8") ∧ fp = 8)) ∧
         ((c = "*" ∨ c = "" ∨ c = "-1") ∧ tp = -1))) ∧
    parseSGRule envABC ("tcp:0:100:10.0.0.0/8") ("us-east-1") =
      .error ("(tcp:0:100:10.0.0.0/8): from_port is less than 1: 0") ∧
    parseSGRule envABC ("tcp:100:50:10.0.0.0/8") ("us-east-1") =
      .error
        ("(tcp:100:50:10.0.0.0/8): to_port (50) can not be less than from_port (100)") ∧
    parseSGRule envABC ("icmp:9:0:10.0.0.0/8") ("us-east-1") =
      .error ("(icmp:9:0:10.0.0.0/8): Unknown icmp type: 9") :=
  ⟨checkNormalPort_ok_iff, checkICMPPort_ok_iff, by rfl, by rfl, by rfl⟩

/-- C8 counterexample: with configured groups {A, B, C} the rule `tcp:*` does
not expand to 3 permissions — its 2-field form fails tcp port validation, so
compilation returns an error instead. -/
theorem tcp_wildcard_rejected :
    parseSGRule envABC ("tcp:*") ("us-east-1") =
      .error ("(tcp:*): from_port is not an integer: invalid syntax") := by rfl

/-- C8 (amended): a rule whose protocol is tcp/udp and which passes port
validation expands into exactly two permissions, one tcp and one udp,
identical in port range and source; a wildcard match with a valid port field
expands into one permission per distinct configured firewall-group name, each
referencing that group as a source — with groups {A, B, C}, `tcp:80:*` yields
exactly 3 permissions (the bare 2-field `tcp:*` of the original claim is
rejected by port validation). -/
theorem rule_expansion_amended :
    (∀ (env : SGRuleEnv) (region : String) (fp tp : Int) (m : String),
      env.isCidr m = true → m ≠ "*" →
      expandRule env region ("tcp/udp") fp tp m =
        .ok [{ protocol := "tcp", fromPort := fp, toPort := tp,
               sourceIPs := [m], sourceGroups := [] },
             { protocol := "udp", fromPort := fp, toPort := tp,
               sourceIPs := [m], sourceGroups := [] }]) ∧
    parseSGRule envABC ("tcp/udp:80:10.0.0.0/8") ("us-east-1") =
      .ok [{ protocol := "tcp", fromPort := 80, toPort := 80,
             sourceIPs := ["10.0.0.0/8"], sourceGroups := [] },
           { protocol := "udp", fromPort := 80, toPort := 80,
             sourceIPs := ["10.0.0.0/8"], sourceGroups := [] }] ∧
    parseSGRule envABC ("tcp:80:*") ("us-east-1") =
      .ok [{ protocol := "tcp", fromPort := 80, toPort := 80,
             sourceIPs := [], sourceGroups := [sgA] },
           { protocol := "tcp", fromPort := 80, toPort := 80,
             sourceIPs := [], sourceGroups := [sgB] },
           { protocol := "tcp", fromPort := 80, toPort := 80,
             sourceIPs := [], sourceGroups := [sgC] }] ∧
    (parseSGRule envABC ("tcp:80:*") ("us-east-1")).map List.length =
      .ok 3 := by
  refine ⟨?_, by rfl, by rfl, by rfl⟩
  intro env region fp tp m hcidr hm
  have hb : (m == "*") = false := beq_eq_false_iff_ne.mpr hm
  simp only [expandRule, hb, Bool.false_eq_true, if_false, hcidr, if_true,
    List.foldlM, bind, Except.bind]
  rfl

/-- Witness for `rule_expansion_amended`: the general tcp/udp expansion
conjunct applied at a concrete CIDR match and port. -/
theorem rule_expansion_amended_witness :
    envABC.isCidr ("10.0.0.0/8") = true ∧ ("10.0.0.0/8" : String) ≠ "*" ∧
    expandRule envABC ("us-east-1") ("tcp/udp") 443 443 ("10.0.0.0/8") =
      .ok [{ protocol := "tcp", fromPort := 443, toPort := 443,
             sourceIPs := ["10.0.0.0/8"], sourceGroups := [] },
           { protocol := "udp", fromPort := 443, toPort := 443,
             sourceIPs := ["10.0.0.0/8"], sourceGroups := [] }] :=
  ⟨rfl, by decide,
    rule_expansion_amended.1 envABC ("us-east-1") 443 443 ("10.0.0.0/8") rfl
      (by decide)⟩

/-! ## Region cache (`Region.Refresh` / `regionCacheLoop`, region.go) -/

/-- Go map from string keys, modelled as an association list where a later
insert shadows earlier entries (lookup takes the first match). Only `insert`
and `find` are used, so this matches Go last-write-wins map semantics. -/
abbrev StrMap (α : Type) : Type := List (String × α)

def StrMap.empty {α : Type} : StrMap α := []

def StrMap.insert {α : Type} (m : StrMap α) (k : String) (v : α) : StrMap α :=
  (k, v) :: m

def StrMap.find {α : Type} (m : StrMap α) (k : String) : Option α :=
  match m with
  | [] => none
  | (k2, v) :: rest => if k2 == k then some v else StrMap.find rest k

/-- A key identity as salter caches it (key.go): name, normalized
fingerprint, and the local key material abstracted to its file name. -/
structure Key where
  name : String
  fingerprint : String
  filename : String
  deriving DecidableEq, Repr

/-- ec2.KeyPair as reported by the provider key listing. -/
structure KeyPair where
  name : String
  fingerprint : String
  deriving DecidableEq, Repr

/-- ec2.SecurityGroupInfo — the fields Refresh uses. -/
structure SecurityGroupInfo where
  id : String
  name : String
  ownerId : String
  description : String
  vpcId : String
  ipPerms : List IPPerm
  deriving DecidableEq, Repr

/-- The zero value of ec2.SecurityGroupInfo (Go composite literal with all
fields omitted). -/
def SecurityGroupInfo.zero : SecurityGroupInfo :=
  { id := "", name := "", ownerId := "", description := "", vpcId := "",
    ipPerms := [] }

/-- RegionalSGroup (region.go): an ec2.SecurityGroupInfo plus its region. -/
structure RegionalSGroup where
  info : SecurityGroupInfo
  regionId : String
  deriving DecidableEq, Repr

/-- The `Region` struct (region.go): the key and security-group caches plus
the connection's region name and the data directory. -/
structure Region where
  keys : StrMap Key
  sgroups : StrMap RegionalSGroup
  regionName : String
  dataDir : String

/-- The key-fetch goroutine body of `Region.Refresh` (region.go:920-951):
for each reported key pair, normalize the fingerprint by stripping colons;
reuse the cached entry when its fingerprint matches, otherwise load the
local key material (`LoadKey(name, dataDir, fingerprint)`, abstracted as the
`loadKey` parameter), skipping the key when loading fails. -/
def buildKeys (loadKey : String → String → String → Except String Key)
    (oldKeys : StrMap Key) (dataDir : String) (pairs : List KeyPair) :
    StrMap Key :=
  pairs.foldl (fun acc kp =>
    let fingerprint := kp.fingerprint.replace (":") ("")
    let loaded : StrMap Key :=
      match loadKey kp.name dataDir fingerprint with
      | .ok k => acc.insert kp.name k
      | .error _ => acc
    match StrMap.find oldKeys kp.name with
    | some key => if key.fingerprint == fingerprint then acc.insert kp.name key
                  else loaded
    | none => loaded) StrMap.empty

/-- The security-group-fetch goroutine body of `Region.Refresh`
(region.go:955-976): keep every non-VPC group under its name, then
unconditionally insert the synthetic amazon-elb-sg group. -/
def buildSGroups (regionName : String) (groups : List SecurityGroupInfo) :
    StrMap RegionalSGroup :=
  let m := groups.foldl (fun acc g =>
    if g.vpcId != "" then acc
    else acc.insert g.name { info := g, regionId := regionName }) StrMap.empty
  let amazonElbSg : RegionalSGroup :=
    { info := { SecurityGroupInfo.zero with
                  name := "amazon-elb-sg", ownerId := "amazon-elb" },
      regionId := regionName }
  m.insert ("amazon-elb-sg") amazonElbSg

/-- `Region.Refresh` (region.go:910-988). The two provider fetches run in
parallel goroutines; each stores its error in `lastErr` and returns early.
The embedding takes the fetch results as parameters; when both fail Go keeps
whichever error was written last, modelled here deterministically as the
key-fetch error. After the join, an error leaves the region untouched and is
returned; otherwise both freshly built maps overwrite the snapshot. -/
def Region.refresh (loadKey : String → String → String → Except String Key)
    (keysResult : Except String (List KeyPair))
    (sgResult : Except String (List SecurityGroupInfo)) (r : Region) :
    Region × Option String :=
  match keysResult with
  | .error e => (r, some e)
  | .ok pairs =>
    match sgResult with
    | .error e => (r, some e)
    | .ok groups =>
      ({ r with keys := buildKeys loadKey r.keys r.dataDir pairs,
                sgroups := buildSGroups r.regionName groups }, none)

/-- C4: Refresh commits neither map unless both fetches succeed — on any
fetch error the region's previous Keys and SGroups snapshot is retained
unchanged and the error is returned; when both fetches succeed, both maps
are overwritten with the freshly built ones. -/
theorem refresh_commits_both_or_none
    (loadKey : String → String → String → Except String Key) (r : Region) :
    (∀ pairs groups,
      Region.refresh loadKey (.ok pairs) (.ok groups) r =
        ({ r with keys := buildKeys loadKey r.keys r.dataDir pairs,
                  sgroups := buildSGroups r.regionName groups }, none)) ∧
    (∀ e sgResult, Region.refresh loadKey (.error e) sgResult r = (r, some e)) ∧
    (∀ pairs e, Region.refresh loadKey (.ok pairs) (.error e) r = (r, some e)) :=
  ⟨fun _ _ => rfl, fun _ _ => rfl, fun _ _ => rfl⟩

/-- C10: every successful Refresh unconditionally inserts the synthetic
group amazon-elb-sg with owner identifier amazon-elb into the region's group
map, regardless of what the provider reported, so after any successful
refresh a lookup of "amazon-elb-sg" succeeds in every region. -/
theorem refresh_inserts_amazon_elb_group
    (loadKey : String → String → String → Except String Key)
    (pairs : List KeyPair) (groups : List SecurityGroupInfo) (r : Region) :
    StrMap.find ((Region.refresh loadKey (.ok pairs) (.ok groups) r).1.sgroups)
        ("amazon-elb-sg") =
      some { info := { SecurityGroupInfo.zero with
                         name := "amazon-elb-sg", ownerId := "amazon-elb" },
             regionId := r.regionName } := by
  simp [Region.refresh, buildSGroups, StrMap.insert, StrMap.find]

/-- The request-serving loop of the region cache (`regionCacheLoop`,
launch.go:836-860). The cache runs as a single actor goroutine receiving
requests over an unbuffered channel, so concurrent `GetRegion` callers are
serialized into some arrival order, modelled as the request list. For each
request: a cache hit answers with the stored region; otherwise the expensive
populate step (`region.Refresh()`, one key-list plus one group-list fetch,
abstracted as `populate`) runs — on error the caller receives the error and
the region is NOT stored, on success the region is stored and returned. The
`Nat` component counts populate invocations. -/
def processRequests (populate : String → Except String Region) :
    List String → StrMap Region → Nat →
    List (Except String Region) × StrMap Region × Nat
  | [], regions, count => ([], regions, count)
  | name :: rest, regions, count =>
    match StrMap.find regions name with
    | some region =>
      let out := processRequests populate rest regions count
      (.ok region :: out.1, out.2)
    | none =>
      match populate name with
      | .error e =>
        let out := processRequests populate rest regions (count + 1)
        (.error e :: out.1, out.2)
      | .ok region =>
        let out :=
          processRequests populate rest (regions.insert name region) (count + 1)
        (.ok region :: out.1, out.2)

theorem processRequests_cached (populate : String → Except String Region)
    (name : String) (reg : Region) (regions : StrMap Region)
    (h : StrMap.find regions name = some reg) (n count : Nat) :
    processRequests populate (List.replicate n name) regions count =
      (List.replicate n (.ok reg), regions, count) := by
  induction n with
  | zero => simp [processRequests]
  | succ k ih => simp [processRequests, List.replicate_succ, h, ih]

theorem processRequests_error (populate : String → Except String Region)
    (name : String) (e : String) (h : populate name = .error e)
    (regions : StrMap Region) (hfind : StrMap.find regions name = none)
    (n count : Nat) :
    processRequests populate (List.replicate n name) regions count =
      (List.replicate n (.error e), regions, count + n) := by
  induction n generalizing count with
  | zero => simp [processRequests]
  | succ k ih =>
    have harith : count + 1 + k = count + (k + 1) := by omega
    simp only [List.replicate_succ, processRequests, hfind, h, ih, harith]

/-- C3 counterexample: two first-time `GetRegion` requests for the same
region whose populate step fails run the populate step twice, not exactly
once — the cache loop does not store failed populations, so each caller
re-triggers the key-list/group-list fetch pair. -/
theorem populate_runs_twice_on_error :
    (processRequests (fun _ => .error ("fetch failed"))
        (["us-east-1", "us-east-1"]) StrMap.empty 0).2.2 = 2 ∧
    ((processRequests (fun _ => .error ("fetch failed"))
        (["us-east-1", "us-east-1"]) StrMap.empty 0).2.2 == 1) = false :=
  ⟨rfl, rfl⟩

/-- C3 (amended): requests to the region cache actor are served one at a
time (the embedding's request list is the serialized arrival order). For N
first-time requests for the same region, when the populate step succeeds it
runs exactly once, the region is cached, and every caller receives that same
region; when the populate step fails, the region is not cached, every caller
receives the same error, and the populate step runs once per caller (N
times), not exactly once as originally claimed. -/
theorem regionCache_single_flight :
    (∀ (populate : String → Except String Region) (name : String) (n : Nat)
        (reg : Region), populate name = .ok reg →
      processRequests populate (List.replicate (n + 1) name) StrMap.empty 0 =
        (List.replicate (n + 1) (.ok reg), StrMap.empty.insert name reg, 1)) ∧
    (∀ (populate : String → Except String Region) (name : String) (n : Nat)
        (e : String), populate name = .error e →
      processRequests populate (List.replicate n name) StrMap.empty 0 =
        (List.replicate n (.error e), StrMap.empty, n)) := by
  constructor
  · intro populate name n reg h
    have hfind : StrMap.find (StrMap.empty : StrMap Region) name = none := rfl
    have hfound : StrMap.find (StrMap.empty.insert name reg) name = some reg := by
      simp [StrMap.insert, StrMap.find]
    simp [List.replicate_succ, processRequests, hfind, h,
      processRequests_cached populate name reg _ hfound n 1]
  · intro populate name n e h
    simpa using processRequests_error populate name e h StrMap.empty rfl n 0

/-- A concrete region value for the single-flight witness. -/
def regOk : Region :=
  { keys := StrMap.empty, sgroups := StrMap.empty, regionName := "us-east-1",
    dataDir := "/tmp/data" }

/-- Witness for `regionCache_single_flight`: three concurrent first-time
requests with a succeeding populate yield one populate run and three
identical answers; with a failing populate, two requests yield two runs. -/
theorem regionCache_single_flight_witness :
    ((fun _ => .ok regOk : String → Except String Region) ("us-east-1") =
        Except.ok regOk ∧
      processRequests (fun _ => .ok regOk) (List.replicate 3 ("us-east-1"))
          StrMap.empty 0 =
        (List.replicate 3 (.ok regOk), StrMap.empty.insert ("us-east-1") regOk,
          1)) ∧
    ((fun _ => .error ("boom") : String → Except String Region) ("us-east-1") =
        Except.error ("boom") ∧
      processRequests (fun _ => .error ("boom")) (List.replicate 2 ("us-east-1"))
          StrMap.empty 0 =
        (List.replicate 2 (.error ("boom")), StrMap.empty, 2)) :=
  ⟨⟨rfl, regionCache_single_flight.1 (fun _ => .ok regOk) ("us-east-1") 2 regOk
      rfl⟩,
   ⟨rfl, regionCache_single_flight.2 (fun _ => .error ("boom")) ("us-east-1") 2
      ("boom") rfl⟩⟩

/-! ## Node lifecycle (`Node.Update`, node.go; `waitForRunning`, launch.go) -/

/-- ec2.InstanceState — numeric code and state name. -/
structure InstanceState where
  code : Int
  name : String
  deriving DecidableEq, Repr

/-- ec2.Instance — the fields salter uses. -/
structure Ec2Instance where
  instanceId : String
  state : InstanceState
  deriving DecidableEq, Repr

/-- ec2.Reservation — its list of instances. -/
structure Reservation where
  instances : List Ec2Instance
  deriving DecidableEq, Repr

/-- The `Node` struct (node.go:35-50), restricted to the fields `Update`
touches: the name and the nilable instance handle. -/
structure Node where
  name : String
  inst : Option Ec2Instance
  deriving DecidableEq, Repr

/-- `Node.Update` (node.go:57-84): clears the instance handle
(`node.Instance = nil`), queries the provider filtered on the node's name
and the non-terminated state codes 0/16 (the response is the embedding's
parameter), then: a query error is returned; zero reservations mean the node
is simply not running (no error); more than one reservation, or more than
one instance in the first reservation, is the ambiguity error; otherwise the
single reported instance is stored. Go indexes `Instances[0]`
unconditionally, so a single empty reservation would panic — modelled as
leaving the handle nil via `head?`. -/
def Node.update (resp : Except String (List Reservation)) (node : Node) :
    Node × Option String :=
  let cleared : Node := { node with inst := none }
  match resp with
  | .error e => (cleared, some e)
  | .ok [] => (cleared, none)
  | .ok (r :: rest) =>
    if rest.length + 1 > 1 ∨ r.instances.length > 1 then
      (cleared,
        some ("Unexpected number of reservations/instances for " ++ node.name))
    else
      ({ cleared with inst := r.instances.head? }, none)

/-- `Node.IsRunning` (node.go:86-93). -/
def Node.isRunning (node : Node) : Bool :=
  match node.inst with
  | none => false
  | some i => decide (i.state.code < 32)

/-- A running instance used in the lifecycle examples. -/
def instRunning : Ec2Instance :=
  { instanceId := "i-0001", state := { code := 16, name := "running" } }

/-- A node that currently holds an instance handle. -/
def nodeWeb : Node := { name := "web1", inst := some instRunning }

/-- A provider response with two reservations matching one node name. -/
def twoReservations : List Reservation :=
  [{ instances := [instRunning] }, { instances := [instRunning] }]

/-- C5 counterexample: an ambiguous provider response (2 reservations) makes
Update return an error, but the node's instance handle is not left unchanged
— Update clears the handle to nil on entry, so the previously stored handle
is gone after the error. -/
theorem update_clears_handle_on_ambiguity :
    (Node.update (.ok twoReservations) nodeWeb).2.isSome = true ∧
    (Node.update (.ok twoReservations) nodeWeb).1.inst = none ∧
    ((Node.update (.ok twoReservations) nodeWeb).1.inst == nodeWeb.inst) =
      false :=
  ⟨rfl, rfl, by decide⟩

/-- C5 (amended): Update with zero matching reservations returns no error and
leaves the node considered not running; with more than one reservation, or
more than one instance in the single reservation, it returns an error and
never stores any reported instance — in the ambiguous-error case the
instance handle, unconditionally cleared at entry, is nil (not retained as
originally claimed). -/
theorem update_zero_and_ambiguous (node : Node) :
    (Node.update (.ok []) node = ({ node with inst := none }, none) ∧
      (Node.update (.ok []) node).1.isRunning = false) ∧
    (∀ (r1 r2 : Reservation) (rest : List Reservation),
      ∃ e, Node.update (.ok (r1 :: r2 :: rest)) node =
        ({ node with inst := none }, some e)) ∧
    (∀ r : Reservation, r.instances.length > 1 →
      ∃ e, Node.update (.ok [r]) node =
        ({ node with inst := none }, some e)) := by
  refine ⟨⟨rfl, rfl⟩, ?_, ?_⟩
  · intro r1 r2 rest
    refine ⟨("Unexpected number of reservations/instances for " ++ node.name),
      ?_⟩
    have hcond : (r2 :: rest).length + 1 > 1 ∨ r1.instances.length > 1 :=
      Or.inl (by simp)
    simp only [Node.update, if_pos hcond]
  · intro r h
    refine ⟨("Unexpected number of reservations/instances for " ++ node.name),
      ?_⟩
    have hcond : ([] : List Reservation).length + 1 > 1 ∨
        r.instances.length > 1 := Or.inr h
    simp only [Node.update, if_pos hcond]

/-- A reservation carrying two instances, for the Update ambiguity witness. -/
def bigReservation : Reservation := { instances := [instRunning, instRunning] }

/-- Witness for `update_zero_and_ambiguous`: the ambiguity conjunct applied
to a single reservation holding two instances. -/
theorem update_zero_and_ambiguous_witness :
    bigReservation.instances.length > 1 ∧
    ∃ e, Node.update (.ok [bigReservation]) nodeWeb =
      ({ nodeWeb with inst := none }, some e) :=
  ⟨by decide, (update_zero_and_ambiguous nodeWeb).2.2 bigReservation
    (by decide)⟩

/-- The result of one `node.Update()` poll as `waitForRunning` observes it:
either the update call failed, or the node's instance is in the named state. -/
inductive UpdateResult where
  | failed (e : String)
  | state (s : String)
  deriving DecidableEq, Repr

/-- How a run of the `waitForRunning` loop ends. -/
inductive WaitOutcome where
  | sshPhase
  | failure (e : String)
  | exhausted
  deriving DecidableEq, Repr

/-- `waitForRunning` (launch.go:689-709), driven by the list of successive
poll results; returns the outcome, the number of `Update` polls issued, and
the number of times the 5-second sleep executed. Per iteration, Go: on an
update error, return the error; state "running" returns into the ssh wait
(`sshPhase`); state "pending" hits `continue` — which in Go targets the
enclosing `for` loop, not the switch — so control jumps back to the top of
the loop at once; any other state returns an error. The
`time.Sleep(5 * time.Second)` after the switch is unreachable because every
switch branch returns or continues, so the sleep counter is never
incremented. An exhausted poll list ends the trace. -/
def waitForRunningTrace : List UpdateResult → WaitOutcome × Nat × Nat
  | [] => (.exhausted, 0, 0)
  | .failed e :: _ => (.failure ("AWS status update failed - " ++ e), 1, 0)
  | .state s :: rest =>
    if s == "running" then (.sshPhase, 1, 0)
    else if s == "pending" then
      let out := waitForRunningTrace rest
      (out.1, out.2.1 + 1, out.2.2)
    else (.failure ("unexpected instance state - " ++ s), 1, 0)

/-- C9: the claim states a fixed 5-second delay between successive polls and
no two consecutive provider queries without a sleep. In the code the
`pending` case's `continue` targets the enclosing for loop, skipping the
`time.Sleep(5 * time.Second)` that follows the switch (every other branch
returns), so the sleep is dead code: along every poll trace zero sleeps
execute, and the pending-then-running trace issues two back-to-back Update
polls with no sleep between them. -/
theorem waitForRunning_never_sleeps :
    (∀ results, (waitForRunningTrace results).2.2 = 0) ∧
    waitForRunningTrace [.state ("pending"), .state ("running")] =
      (.sshPhase, 2, 0) := by
  constructor
  · intro results
    induction results with
    | nil => rfl
    | cons r rest ih =>
      cases r with
      | failed e => rfl
      | state s =>
        unfold waitForRunningTrace
        split_ifs <;> simp [ih]
  · rfl

end Salter
